import Mathlib

/-!
# Activity-Relay: `models/config.go`

A shallow embedding of `NewRelayConfig`, the `RelayConfig` accessors,
`DumpWelcomeMessage` and `NewMachineryServer`, followed by the properties
established about them.

Conventions of the embedding.

* A Go `error` is represented by its message (`err.Error()`); `none` is the
  `nil` error.
* A Go pointer is an `Option`; `none` is the `nil` pointer.
* The external collaborators (viper, `net/url`, the key loader, go-redis,
  machinery, logrus) are not part of `config.go`. Their outcomes are the
  fields of `Viper` and `Collaborators`, so every general statement ranges
  over all of their possible behaviours. Calls that act on the outside world
  are recorded, in order, in a trace of `Event`s.
* A run-time panic (a `nil` dereference) is the outer `none` of the functions
  that can panic.
-/

namespace ActivityRelay

/-! ## Data model -/

/-- The `url.Userinfo` of Go: user name and optional password. -/
structure Userinfo where
  username : String
  password : String
  passwordSet : Bool
deriving DecidableEq, Repr

/-- The `url.URL` of Go, field for field. -/
structure URL where
  Scheme : String := ""
  Opaque : String := ""
  User : Option Userinfo := none
  Host : String := ""
  Path : String := ""
  RawPath : String := ""
  OmitHost : Bool := false
  ForceQuery : Bool := false
  RawQuery : String := ""
  Fragment : String := ""
  RawFragment : String := ""
deriving DecidableEq, Repr

/-- An `rsa.PrivateKey`, identified by an abstract token. -/
structure PrivateKey where
  token : Nat
deriving DecidableEq, Repr

/-- The `redis.Options` that `redis.ParseURL` fills in. -/
structure RedisOptions where
  Network : String
  Addr : String
  Password : String
  DB : Int
deriving DecidableEq, Repr

/-- A `redis.Client`, identified by an abstract token. -/
structure RedisClient where
  token : Nat
deriving DecidableEq, Repr

/-- The `config.AMQPConfig` of machinery: the fields that `config.go` sets. -/
structure AMQPConfig where
  Exchange : String
  ExchangeType : String
  BindingKey : String
deriving DecidableEq, Repr

/-- The `config.Config` of machinery: the fields that `config.go` sets (every
other field keeps its zero value). -/
structure Config where
  Broker : String
  DefaultQueue : String
  ResultBackend : String
  ResultsExpireIn : Int
  AMQP : Option AMQPConfig
deriving DecidableEq, Repr

/-- A `machinery.Server`, identified by an abstract token. -/
structure MachineryServer where
  token : Nat
deriving DecidableEq, Repr

/-- The `RelayConfig` struct, field for field. -/
structure RelayConfig where
  actorKey : Option PrivateKey
  domain : Option URL
  redisClient : Option RedisClient
  brokerURL : Option URL
  redisURL : Option URL
  serverBind : String
  serviceName : String
  serviceSummary : String
  serviceIconURL : Option URL
  serviceImageURL : Option URL
  jobConcurrency : Int
deriving DecidableEq, Repr

/-! ## Collaborators -/

/-- The settings source: what `viper.GetString` and `viper.GetInt` return
for each key. -/
structure Viper where
  GetString : String → String
  GetInt : String → Int

/-- The outcomes of the library calls made by `config.go`. -/
structure Collaborators where
  /-- The function `url.ParseRequestURI`. -/
  ParseRequestURI : String → Except String URL
  /-- The method `(*url.URL).String` on a non-nil receiver. -/
  URLString : URL → String
  /-- The key loader `readPrivateKeyRSA` of the `models` package. -/
  readPrivateKeyRSA : String → Except String PrivateKey
  /-- The function `redis.ParseURL`. -/
  redisParseURL : String → Except String RedisOptions
  /-- The function `redis.NewClient`. -/
  redisNewClient : RedisOptions → RedisClient
  /-- The result of `client.Ping().Err()`. -/
  ping : RedisClient → Option String
  /-- The function `machinery.NewServer`: a server pointer and an error. -/
  machineryNewServer : Config → Option MachineryServer × Option String

/-- An externally visible action of `config.go`. -/
inductive Event where
  | warn (msg : String)
  | ping (client : RedisClient)
  | newServer (cnf : Config)
deriving DecidableEq, Repr

/-- What a call of `NewRelayConfig` produces: the two return values and the
actions performed on the way. -/
structure BuildResult where
  config : Option RelayConfig
  err : Option String
  trace : List Event
deriving DecidableEq, Repr

/-! ## `NewRelayConfig` -/

/-- The function `NewRelayConfig` (config.go, lines 33-96). -/
def NewRelayConfig (v : Viper) (w : Collaborators) : BuildResult :=
  match w.ParseRequestURI ("https://" ++ v.GetString "RELAY_DOMAIN") with
  | .error err => ⟨none, some ("RELAY_DOMAIN: " ++ err), []⟩
  | .ok domain =>
    let icon := w.ParseRequestURI (v.GetString "RELAY_ICON")
    let iconURL : Option URL :=
      match icon with
      | .error _ => none
      | .ok u => some u
    let t1 : List Event :=
      match icon with
      | .error _ => [Event.warn "RELAY_ICON: INVALID OR EMPTY. THIS COLUMN IS DISABLED."]
      | .ok _ => []
    let image := w.ParseRequestURI (v.GetString "RELAY_IMAGE")
    let imageURL : Option URL :=
      match image with
      | .error _ => none
      | .ok u => some u
    let t2 : List Event :=
      match image with
      | .error _ => t1 ++ [Event.warn "RELAY_IMAGE: INVALID OR EMPTY. THIS COLUMN IS DISABLED."]
      | .ok _ => t1
    let jobConcurrency := v.GetInt "JOB_CONCURRENCY"
    if jobConcurrency < 1 then
      ⟨none, some "JOB_CONCURRENCY IS 0 OR EMPTY. SHOULD BE MORE THAN 1", t2⟩
    else
      match w.readPrivateKeyRSA (v.GetString "ACTOR_PEM") with
      | .error err => ⟨none, some ("ACTOR_PEM: " ++ err), t2⟩
      | .ok privateKey =>
        match w.ParseRequestURI (v.GetString "REDIS_URL") with
        | .error err => ⟨none, some ("REDIS_URL: " ++ err), t2⟩
        | .ok redisURL =>
          match w.redisParseURL (w.URLString redisURL) with
          | .error err => ⟨none, some ("REDIS_URL: " ++ err), t2⟩
          | .ok redisOption =>
            let redisClient := w.redisNewClient redisOption
            let t3 := t2 ++ [Event.ping redisClient]
            match w.ping redisClient with
            | some err => ⟨none, some ("Redis Connection Test: " ++ err), t3⟩
            | none =>
              let broker := w.ParseRequestURI (v.GetString "BROKER_URL")
              let brokerURL : URL :=
                match broker with
                | .error _ => redisURL
                | .ok u => u
              let t4 : List Event :=
                match broker with
                | .error _ => t3 ++ [Event.warn "BROKER_URL: INVALID OR EMPTY. USE REDIS_URL."]
                | .ok _ => t3
              let serverBind := v.GetString "RELAY_BIND"
              ⟨some
                { actorKey := some privateKey
                  domain := some domain
                  redisClient := some redisClient
                  brokerURL := some brokerURL
                  redisURL := some redisURL
                  serverBind := serverBind
                  serviceName := v.GetString "RELAY_SERVICENAME"
                  serviceSummary := v.GetString "RELAY_SUMMARY"
                  serviceIconURL := iconURL
                  serviceImageURL := imageURL
                  jobConcurrency := jobConcurrency },
               none, t4⟩

/-! ## Accessors -/

/-- The method `ServerBind`. -/
def RelayConfig.ServerBind (relayConfig : RelayConfig) : String :=
  relayConfig.serverBind

/-- The method `ServerHostname`. -/
def RelayConfig.ServerHostname (relayConfig : RelayConfig) : Option URL :=
  relayConfig.domain

/-- The method `ServerServiceName`. -/
def RelayConfig.ServerServiceName (relayConfig : RelayConfig) : String :=
  relayConfig.serviceName

/-- The method `JobConcurrency`. -/
def RelayConfig.JobConcurrency (relayConfig : RelayConfig) : Int :=
  relayConfig.jobConcurrency

/-- The method `ActorKey`. -/
def RelayConfig.ActorKey (relayConfig : RelayConfig) : Option PrivateKey :=
  relayConfig.actorKey

/-- The method `RedisClient`. -/
def RelayConfig.RedisClient (relayConfig : RelayConfig) : Option RedisClient :=
  relayConfig.redisClient

/-! ## `DumpWelcomeMessage` -/

/-- An argument handed to `fmt.Sprintf` by `config.go`: a Go string or a
`*url.URL`. -/
inductive Arg where
  | str (s : String)
  | url (u : Option URL)
deriving DecidableEq, Repr

/-- How the `%s` verb prints an argument: a string as it is, a `*url.URL`
through its `String` method, and the nil pointer as `<nil>`. -/
def Arg.render (w : Collaborators) : Arg → String
  | .str s => s
  | .url (some u) => w.URLString u
  | .url none => "<nil>"

/-- The function `fmt.Sprintf` on the characters of a format whose only verb
is `%s`, each verb matched by one argument. `none` outside this fragment
(another verb, a missing or a surplus argument). -/
def sprintfChars (w : Collaborators) : List Char → List Arg → Option (List Char)
  | [], [] => some []
  | [], _ :: _ => none
  | '%' :: 's' :: rest, a :: args =>
    (sprintfChars w rest args).map fun out => (a.render w).data ++ out
  | '%' :: _, _ => none
  | c :: rest, args => (sprintfChars w rest args).map fun out => c :: out

/-- The function `fmt.Sprintf`, see `sprintfChars`. -/
def Sprintf (w : Collaborators) (format : String) (args : List Arg) : Option String :=
  (sprintfChars w format.data args).map String.mk

/-- The function `strconv.Itoa`: the decimal rendering of an integer. -/
def Itoa : Int → String
  | .ofNat n => Nat.repr n
  | .negSucc n => "-" ++ Nat.repr (n + 1)

/-- The format literal of `DumpWelcomeMessage` (config.go, lines 130-138). -/
def welcomeFormat : String :=
  "Welcome to YUKIMOCHI Activity-Relay %s - %s\n - Configuration\nRELAY NAME      : %s\nRELAY DOMAIN    : %s\nBROKER URL      : %s\nREDIS URL       : %s\nBIND ADDRESS    : %s\nJOB_CONCURRENCY : %s\n"

/-- The method `DumpWelcomeMessage` (config.go, lines 129-139). Reading
`relayConfig.domain.Host` through a nil `domain` panics: `none`. -/
def RelayConfig.DumpWelcomeMessage (w : Collaborators) (relayConfig : RelayConfig)
    (moduleName : String) (version : String) : Option String :=
  match relayConfig.domain with
  | none => none
  | some domain =>
    Sprintf w welcomeFormat
      [Arg.str version, Arg.str moduleName, Arg.str relayConfig.serviceName,
       Arg.str domain.Host, Arg.url relayConfig.brokerURL, Arg.url relayConfig.redisURL,
       Arg.str relayConfig.serverBind, Arg.str (Itoa relayConfig.jobConcurrency)]

/-! ## `NewMachineryServer` -/

/-- What a call of `NewMachineryServer` produces: the two return values and
the actions performed on the way. -/
structure ServerResult where
  server : Option MachineryServer
  err : Option String
  trace : List Event
deriving DecidableEq, Repr

/-- The function `NewMachineryServer` (config.go, lines 142-157). Calling
`String` through a nil `brokerURL` or `redisURL` panics: `none`. -/
def NewMachineryServer (w : Collaborators) (globalConfig : RelayConfig) :
    Option ServerResult :=
  match globalConfig.brokerURL with
  | none => none
  | some brokerURL =>
    match globalConfig.redisURL with
    | none => none
    | some redisURL =>
      let cnf : Config :=
        { Broker := w.URLString brokerURL
          DefaultQueue := "relay"
          ResultBackend := w.URLString redisURL
          ResultsExpireIn := 1
          AMQP := some
            { Exchange := "relay_exchange"
              ExchangeType := "direct"
              BindingKey := "relay_task" } }
      let r := w.machineryNewServer cnf
      some ⟨r.1, r.2, [Event.newServer cnf]⟩

/-! ## A model of `net/url` on plain addresses

The scenarios below need concrete outcomes of `url.ParseRequestURI` and
`(*url.URL).String`. The two functions are modelled here, following the
control flow of Go's `net/url`, on the fragment of plain addresses: strings
made of ASCII letters, digits and the characters `- . _ ~ : / ? +`. On this
fragment no percent-escape, user information, bracketed host or control
character occurs, and `%q` quoting only adds the two quotation marks.
-/

namespace GoURL

/-- The characters of the modelled fragment. -/
def plainChar (c : Char) : Bool :=
  ('a' ≤ c && c ≤ 'z') || ('A' ≤ c && c ≤ 'Z') || ('0' ≤ c && c ≤ '9') ||
    c == '-' || c == '.' || c == '_' || c == '~' || c == ':' || c == '/' ||
    c == '?' || c == '+'

/-- The function `strings.Cut` with a one-character separator: the text
before the first separator, the text after it, and whether it was found. -/
def cut (sep : Char) : List Char → List Char × List Char × Bool
  | [] => ([], [], false)
  | c :: cs =>
    if c = sep then ([], cs, true)
    else
      let r := cut sep cs
      (c :: r.1, r.2.1, r.2.2)

/-- The loop of `getScheme`, with the characters read so far in `seen`. -/
def getSchemeLoop (rawURL : List Char) (seen : List Char) :
    List Char → Except String (List Char × List Char)
  | [] => .ok ([], rawURL)
  | c :: cs =>
    if ('a' ≤ c && c ≤ 'z') || ('A' ≤ c && c ≤ 'Z') then
      getSchemeLoop rawURL (seen ++ [c]) cs
    else if ('0' ≤ c && c ≤ '9') || c == '+' || c == '-' || c == '.' then
      if seen.isEmpty then .ok ([], rawURL) else getSchemeLoop rawURL (seen ++ [c]) cs
    else if c == ':' then
      if seen.isEmpty then .error "missing protocol scheme" else .ok (seen, cs)
    else .ok ([], rawURL)

/-- The function `getScheme`: the scheme and the rest of the address. -/
def getScheme (rawURL : List Char) : Except String (List Char × List Char) :=
  getSchemeLoop rawURL [] rawURL

/-- The function `validOptionalPort`. -/
def validOptionalPort : List Char → Bool
  | [] => true
  | c :: digits => c == ':' && digits.all fun b => '0' ≤ b && b ≤ '9'

/-- The text from the last `:` of a host on, if there is one. -/
def colonPort (host : List Char) : Option (List Char) :=
  let r := cut ':' host.reverse
  if r.2.2 then some (':' :: r.1.reverse) else none

/-- The function `parseHost` on a host without bracket and percent sign. -/
def parseHost (host : List Char) : Except String (List Char) :=
  match colonPort host with
  | some port =>
    if validOptionalPort port then .ok host
    else .error ("invalid port \"" ++ String.mk port ++ "\" after host")
  | none => .ok host

/-- The function `parse` with `viaRequest` set, on a plain address. -/
def parse (rawURL : List Char) : Except String URL :=
  if rawURL.isEmpty then .error "empty url"
  else
    match getScheme rawURL with
    | .error err => .error err
    | .ok (scheme, rest0) =>
      let Scheme := String.mk (scheme.map Char.toLower)
      let q := cut '?' rest0
      let forceQuery := q.2.2 && q.2.1.isEmpty
      let rest := q.1
      let RawQuery := String.mk q.2.1
      match rest with
      | '/' :: '/' :: afterSlashes =>
        if Scheme ≠ "" then
          let a := cut '/' afterSlashes
          let path := if a.2.2 then '/' :: a.2.1 else []
          match parseHost a.1 with
          | .error err => .error err
          | .ok host =>
            .ok { Scheme := Scheme, Host := String.mk host, Path := String.mk path,
                  ForceQuery := forceQuery, RawQuery := RawQuery }
        else
          .ok { Scheme := Scheme, Path := String.mk rest,
                ForceQuery := forceQuery, RawQuery := RawQuery }
      | '/' :: _ =>
        .ok { Scheme := Scheme, Path := String.mk rest, OmitHost := Scheme ≠ "",
              ForceQuery := forceQuery, RawQuery := RawQuery }
      | _ =>
        if Scheme ≠ "" then
          .ok { Scheme := Scheme, Opaque := String.mk rest,
                ForceQuery := forceQuery, RawQuery := RawQuery }
        else .error "invalid URI for request"

/-- The function `url.ParseRequestURI`: on a plain address the outcome of
`parse`, an error wrapped as `parse "<address>": <cause>`; `none` outside
the modelled fragment. -/
def ParseRequestURI (rawURL : String) : Option (Except String URL) :=
  if rawURL.data.all plainChar then
    match parse rawURL.data with
    | .error err => some (.error ("parse \"" ++ rawURL ++ "\": " ++ err))
    | .ok u => some (.ok u)
  else none

/-- Whether `URLString` is modelled on a URL: no user information, raw path or
fragment, and a host and path on which escaping changes nothing. -/
def plainURL (u : URL) : Bool :=
  u.User.isNone && u.RawPath == "" && u.Fragment == "" && u.RawFragment == "" &&
    (u.Host.data.all fun c => plainChar c && c != '/' && c != '?') &&
    (u.Path.data.all fun c => plainChar c && c != '?')

/-- The method `(*url.URL).String` on a plain URL; `none` outside the
modelled fragment. -/
def URLString (u : URL) : Option String :=
  if plainURL u then
    let s1 := if u.Scheme ≠ "" then u.Scheme ++ ":" else ""
    let s5 :=
      if u.Opaque ≠ "" then s1 ++ u.Opaque
      else
        let s2 :=
          if u.Scheme ≠ "" ∨ u.Host ≠ "" then
            if u.OmitHost && u.Host == "" then s1
            else (if u.Host ≠ "" ∨ u.Path ≠ "" then s1 ++ "//" else s1) ++ u.Host
          else s1
        let s3 :=
          if u.Path ≠ "" ∧ u.Path.data.head? ≠ some '/' ∧ u.Host ≠ "" then s2 ++ "/" else s2
        let s4 :=
          if s3 = "" ∧ (cut '/' u.Path.data).1.contains ':' then "./" else s3
        s4 ++ u.Path
    some (if u.ForceQuery ∨ u.RawQuery ≠ "" then s5 ++ "?" ++ u.RawQuery else s5)
  else none

end GoURL

/-! ## Scenarios

Concrete settings and collaborators on which the general statements are
exercised. -/

/-- A settings source given by its string settings and by the integer read
for `JOB_CONCURRENCY`; an absent string setting reads as the empty string. -/
def settings (strings : List (String × String)) (jobConcurrency : Int) : Viper where
  GetString := fun key => (strings.lookup key).getD ""
  GetInt := fun key => if key = "JOB_CONCURRENCY" then jobConcurrency else 0

/-- A deployment with a readable key file and a reachable local store:
addresses are handled as by `GoURL`, the key file is
`/var/lib/relay/actor.pem`, the cache client accepts the local store address
in its two spellings `redis://localhost:6379/0` and `redis:///0` (an empty
host stands for `localhost:6379`), and every ping is answered. -/
def localWorld : Collaborators where
  ParseRequestURI := fun rawURL =>
    (GoURL.ParseRequestURI rawURL).getD (.error "address outside the modelled fragment")
  URLString := fun u => (GoURL.URLString u).getD ""
  readPrivateKeyRSA := fun keyPath =>
    if keyPath = "/var/lib/relay/actor.pem" then .ok ⟨1⟩
    else .error ("open " ++ keyPath ++ ": no such file or directory")
  redisParseURL := fun redisURL =>
    if redisURL = "redis://localhost:6379/0" ∨ redisURL = "redis:///0" then
      .ok { Network := "tcp", Addr := "localhost:6379", Password := "", DB := 0 }
    else .error "invalid redis URL"
  redisNewClient := fun _ => ⟨1⟩
  ping := fun _ => none
  machineryNewServer := fun _ => (some ⟨1⟩, none)

/-- The deployment `localWorld` with the store down: every ping fails. -/
def unreachableWorld : Collaborators :=
  { localWorld with
    ping := fun _ => some "dial tcp 127.0.0.1:6379: connect: connection refused" }

/-- The end-to-end settings of the specification: `BROKER_URL`, `RELAY_ICON`
and `RELAY_IMAGE` are absent. -/
def endToEndSettings : Viper :=
  settings
    [("RELAY_DOMAIN", "example.org"), ("ACTOR_PEM", "/var/lib/relay/actor.pem"),
     ("REDIS_URL", "redis://localhost:6379/0")] 4

/-- The settings `v` with `RELAY_ICON` and `RELAY_IMAGE` replaced. -/
def withIconAndImage (v : Viper) (icon image : String) : Viper where
  GetString := fun key =>
    if key = "RELAY_ICON" then icon else if key = "RELAY_IMAGE" then image else v.GetString key
  GetInt := v.GetInt

/-- Settings with a malformed domain (a port that is not a number) and a
concurrency of `0`. -/
def malformedDomainSettings : Viper :=
  settings
    [("RELAY_DOMAIN", "example.org:http"), ("ACTOR_PEM", "/var/lib/relay/actor.pem"),
     ("REDIS_URL", "redis://localhost:6379/0")] 0

/-- Settings with an absent `RELAY_DOMAIN`, the absolute path `/foo` as
`BROKER_URL` and the local store written without host, `redis:///0`, as
`REDIS_URL`. -/
def relativeAddressSettings : Viper :=
  settings
    [("ACTOR_PEM", "/var/lib/relay/actor.pem"), ("REDIS_URL", "redis:///0"),
     ("BROKER_URL", "/foo")] 4

/-- The configuration built from the end-to-end settings in `localWorld`,
with a bind address and a service name filled in. -/
def exampleConfig : RelayConfig where
  actorKey := some ⟨1⟩
  domain := some { Scheme := "https", Host := "example.org" }
  redisClient := some ⟨1⟩
  brokerURL := some { Scheme := "redis", Host := "localhost:6379", Path := "/0" }
  redisURL := some { Scheme := "redis", Host := "localhost:6379", Path := "/0" }
  serverBind := "0.0.0.0:8080"
  serviceName := "Relay"
  serviceSummary := "A relay"
  serviceIconURL := none
  serviceImageURL := none
  jobConcurrency := 4

/-- Whether a world handles addresses as `GoURL` does on the modelled
fragment. -/
def Collaborators.followsGoURL (w : Collaborators) : Prop :=
  (∀ rawURL r, GoURL.ParseRequestURI rawURL = some r → w.ParseRequestURI rawURL = r) ∧
    ∀ u s, GoURL.URLString u = some s → w.URLString u = s

/-- Whether the cache client converts only addresses whose scheme, read as
`net/url` reads it, is `redis` or `rediss`, as `redis.ParseURL` does. -/
def Collaborators.acceptsOnlyRedisSchemes (w : Collaborators) : Prop :=
  ∀ s opt, w.redisParseURL s = .ok opt →
    ∃ scheme rest, GoURL.getScheme s.data = .ok (scheme, rest) ∧
      (String.mk (scheme.map Char.toLower) = "redis" ∨
        String.mk (scheme.map Char.toLower) = "rediss")

/-! ## Outcomes of `NewRelayConfig`, step by step -/

section Steps

variable (v : Viper) (w : Collaborators)

theorem build_domain_error {e : String}
    (h1 : w.ParseRequestURI ("https://" ++ v.GetString "RELAY_DOMAIN") = .error e) :
    NewRelayConfig v w = ⟨none, some ("RELAY_DOMAIN: " ++ e), []⟩ := by
  simp [NewRelayConfig, h1]

theorem build_concurrency_error {d : URL}
    (h1 : w.ParseRequestURI ("https://" ++ v.GetString "RELAY_DOMAIN") = .ok d)
    (h2 : v.GetInt "JOB_CONCURRENCY" < 1) :
    (NewRelayConfig v w).config = none ∧
      (NewRelayConfig v w).err = some "JOB_CONCURRENCY IS 0 OR EMPTY. SHOULD BE MORE THAN 1" := by
  simp [NewRelayConfig, h1, h2]

theorem build_key_error {d : URL} {e : String}
    (h1 : w.ParseRequestURI ("https://" ++ v.GetString "RELAY_DOMAIN") = .ok d)
    (h2 : 1 ≤ v.GetInt "JOB_CONCURRENCY")
    (h3 : w.readPrivateKeyRSA (v.GetString "ACTOR_PEM") = .error e) :
    (NewRelayConfig v w).config = none ∧
      (NewRelayConfig v w).err = some ("ACTOR_PEM: " ++ e) := by
  simp [NewRelayConfig, h1, not_lt.mpr h2, h3]

theorem build_redis_parse_error {d : URL} {k : PrivateKey} {e : String}
    (h1 : w.ParseRequestURI ("https://" ++ v.GetString "RELAY_DOMAIN") = .ok d)
    (h2 : 1 ≤ v.GetInt "JOB_CONCURRENCY")
    (h3 : w.readPrivateKeyRSA (v.GetString "ACTOR_PEM") = .ok k)
    (h4 : w.ParseRequestURI (v.GetString "REDIS_URL") = .error e) :
    (NewRelayConfig v w).config = none ∧
      (NewRelayConfig v w).err = some ("REDIS_URL: " ++ e) := by
  simp [NewRelayConfig, h1, not_lt.mpr h2, h3, h4]

theorem build_redis_option_error {d ru : URL} {k : PrivateKey} {e : String}
    (h1 : w.ParseRequestURI ("https://" ++ v.GetString "RELAY_DOMAIN") = .ok d)
    (h2 : 1 ≤ v.GetInt "JOB_CONCURRENCY")
    (h3 : w.readPrivateKeyRSA (v.GetString "ACTOR_PEM") = .ok k)
    (h4 : w.ParseRequestURI (v.GetString "REDIS_URL") = .ok ru)
    (h5 : w.redisParseURL (w.URLString ru) = .error e) :
    (NewRelayConfig v w).config = none ∧
      (NewRelayConfig v w).err = some ("REDIS_URL: " ++ e) := by
  simp [NewRelayConfig, h1, not_lt.mpr h2, h3, h4, h5]

theorem build_ping_error {d ru : URL} {k : PrivateKey} {opt : RedisOptions} {e : String}
    (h1 : w.ParseRequestURI ("https://" ++ v.GetString "RELAY_DOMAIN") = .ok d)
    (h2 : 1 ≤ v.GetInt "JOB_CONCURRENCY")
    (h3 : w.readPrivateKeyRSA (v.GetString "ACTOR_PEM") = .ok k)
    (h4 : w.ParseRequestURI (v.GetString "REDIS_URL") = .ok ru)
    (h5 : w.redisParseURL (w.URLString ru) = .ok opt)
    (h6 : w.ping (w.redisNewClient opt) = some e) :
    (NewRelayConfig v w).config = none ∧
      (NewRelayConfig v w).err = some ("Redis Connection Test: " ++ e) ∧
      Event.ping (w.redisNewClient opt) ∈ (NewRelayConfig v w).trace := by
  cases hi : w.ParseRequestURI (v.GetString "RELAY_ICON") <;>
  cases hm : w.ParseRequestURI (v.GetString "RELAY_IMAGE") <;>
  simp [NewRelayConfig, h1, not_lt.mpr h2, h3, h4, h5, h6, hi, hm]

theorem build_ok {d ru : URL} {k : PrivateKey} {opt : RedisOptions}
    (h1 : w.ParseRequestURI ("https://" ++ v.GetString "RELAY_DOMAIN") = .ok d)
    (h2 : 1 ≤ v.GetInt "JOB_CONCURRENCY")
    (h3 : w.readPrivateKeyRSA (v.GetString "ACTOR_PEM") = .ok k)
    (h4 : w.ParseRequestURI (v.GetString "REDIS_URL") = .ok ru)
    (h5 : w.redisParseURL (w.URLString ru) = .ok opt)
    (h6 : w.ping (w.redisNewClient opt) = none) :
    (NewRelayConfig v w).config = some
        { actorKey := some k
          domain := some d
          redisClient := some (w.redisNewClient opt)
          brokerURL := some
            (match w.ParseRequestURI (v.GetString "BROKER_URL") with
              | .error _ => ru
              | .ok u => u)
          redisURL := some ru
          serverBind := v.GetString "RELAY_BIND"
          serviceName := v.GetString "RELAY_SERVICENAME"
          serviceSummary := v.GetString "RELAY_SUMMARY"
          serviceIconURL := (w.ParseRequestURI (v.GetString "RELAY_ICON")).toOption
          serviceImageURL := (w.ParseRequestURI (v.GetString "RELAY_IMAGE")).toOption
          jobConcurrency := v.GetInt "JOB_CONCURRENCY" } ∧
      (NewRelayConfig v w).err = none ∧
      Event.ping (w.redisNewClient opt) ∈ (NewRelayConfig v w).trace := by
  cases hi : w.ParseRequestURI (v.GetString "RELAY_ICON") <;>
  cases hm : w.ParseRequestURI (v.GetString "RELAY_IMAGE") <;>
  cases hb : w.ParseRequestURI (v.GetString "BROKER_URL") <;>
  simp [NewRelayConfig, h1, not_lt.mpr h2, h3, h4, h5, h6, hi, hm, hb, Except.toOption]

end Steps

/-- Every run of `NewRelayConfig` is in exactly one of seven situations: one
of the six fatal steps is the first to fail, or none fails. -/
theorem build_cases (v : Viper) (w : Collaborators) :
    (∃ e, w.ParseRequestURI ("https://" ++ v.GetString "RELAY_DOMAIN") = .error e) ∨
    (∃ d, w.ParseRequestURI ("https://" ++ v.GetString "RELAY_DOMAIN") = .ok d ∧
      (v.GetInt "JOB_CONCURRENCY" < 1 ∨
       (1 ≤ v.GetInt "JOB_CONCURRENCY" ∧
        ((∃ e, w.readPrivateKeyRSA (v.GetString "ACTOR_PEM") = .error e) ∨
         (∃ k, w.readPrivateKeyRSA (v.GetString "ACTOR_PEM") = .ok k ∧
          ((∃ e, w.ParseRequestURI (v.GetString "REDIS_URL") = .error e) ∨
           (∃ ru, w.ParseRequestURI (v.GetString "REDIS_URL") = .ok ru ∧
            ((∃ e, w.redisParseURL (w.URLString ru) = .error e) ∨
             (∃ opt, w.redisParseURL (w.URLString ru) = .ok opt ∧
              ((∃ e, w.ping (w.redisNewClient opt) = some e) ∨
               w.ping (w.redisNewClient opt) = none)))))))))) := by
  cases h1 : w.ParseRequestURI ("https://" ++ v.GetString "RELAY_DOMAIN") with
  | error e => exact Or.inl ⟨e, rfl⟩
  | ok d =>
    refine Or.inr ⟨d, rfl, ?_⟩
    rcases lt_or_le (v.GetInt "JOB_CONCURRENCY") 1 with h2 | h2
    · exact Or.inl h2
    refine Or.inr ⟨h2, ?_⟩
    cases h3 : w.readPrivateKeyRSA (v.GetString "ACTOR_PEM") with
    | error e => exact Or.inl ⟨e, rfl⟩
    | ok k =>
      refine Or.inr ⟨k, rfl, ?_⟩
      cases h4 : w.ParseRequestURI (v.GetString "REDIS_URL") with
      | error e => exact Or.inl ⟨e, rfl⟩
      | ok ru =>
        refine Or.inr ⟨ru, rfl, ?_⟩
        cases h5 : w.redisParseURL (w.URLString ru) with
        | error e => exact Or.inl ⟨e, rfl⟩
        | ok opt =>
          refine Or.inr ⟨opt, rfl, ?_⟩
          cases h6 : w.ping (w.redisNewClient opt) with
          | some e => exact Or.inl ⟨e, rfl⟩
          | none => exact Or.inr rfl

/-- A run of `NewRelayConfig` either fails with no configuration and an
error, or returns a configuration and no error; and it returns a
configuration exactly in the situation where no fatal step fails. -/
theorem build_outcome (v : Viper) (w : Collaborators) :
    ((NewRelayConfig v w).config = none ∧ (NewRelayConfig v w).err.isSome = true ∧
      ¬ ((∃ d, w.ParseRequestURI ("https://" ++ v.GetString "RELAY_DOMAIN") = .ok d) ∧
        1 ≤ v.GetInt "JOB_CONCURRENCY" ∧
        (∃ k, w.readPrivateKeyRSA (v.GetString "ACTOR_PEM") = .ok k) ∧
        ∃ ru, w.ParseRequestURI (v.GetString "REDIS_URL") = .ok ru ∧
          ∃ opt, w.redisParseURL (w.URLString ru) = .ok opt ∧
            w.ping (w.redisNewClient opt) = none)) ∨
    ((NewRelayConfig v w).config.isSome = true ∧ (NewRelayConfig v w).err = none ∧
      ((∃ d, w.ParseRequestURI ("https://" ++ v.GetString "RELAY_DOMAIN") = .ok d) ∧
        1 ≤ v.GetInt "JOB_CONCURRENCY" ∧
        (∃ k, w.readPrivateKeyRSA (v.GetString "ACTOR_PEM") = .ok k) ∧
        ∃ ru, w.ParseRequestURI (v.GetString "REDIS_URL") = .ok ru ∧
          ∃ opt, w.redisParseURL (w.URLString ru) = .ok opt ∧
            w.ping (w.redisNewClient opt) = none)) := by
  rcases build_cases v w with ⟨e, h1⟩ | ⟨d, h1, h2 | ⟨h2, ⟨e, h3⟩ | ⟨k, h3, ⟨e, h4⟩ |
    ⟨ru, h4, ⟨e, h5⟩ | ⟨opt, h5, ⟨e, h6⟩ | h6⟩⟩⟩⟩⟩
  · left
    rw [build_domain_error v w h1]
    simp [h1]
  · left
    obtain ⟨hc, he⟩ := build_concurrency_error v w h1 h2
    refine ⟨hc, by simp [he], ?_⟩
    rintro ⟨-, h, -⟩
    omega
  · left
    obtain ⟨hc, he⟩ := build_key_error v w h1 h2 h3
    refine ⟨hc, by simp [he], ?_⟩
    simp [h3]
  · left
    obtain ⟨hc, he⟩ := build_redis_parse_error v w h1 h2 h3 h4
    refine ⟨hc, by simp [he], ?_⟩
    simp [h4]
  · left
    obtain ⟨hc, he⟩ := build_redis_option_error v w h1 h2 h3 h4 h5
    refine ⟨hc, by simp [he], ?_⟩
    simp [h4, h5]
  · left
    obtain ⟨hc, he, -⟩ := build_ping_error v w h1 h2 h3 h4 h5 h6
    refine ⟨hc, by simp [he], ?_⟩
    simp [h4, h5, h6]
  · right
    obtain ⟨hc, he, -⟩ := build_ok v w h1 h2 h3 h4 h5 h6
    exact ⟨by simp [hc], he, ⟨d, h1⟩, h2, ⟨k, h3⟩, ru, h4, opt, h5, h6⟩

/-- A configuration returned by `NewRelayConfig` comes from a run in which
no fatal step failed, and its fields are the values computed on the way. -/
theorem build_some (v : Viper) (w : Collaborators) {c : RelayConfig}
    (h : (NewRelayConfig v w).config = some c) :
    ∃ d k ru opt,
      w.ParseRequestURI ("https://" ++ v.GetString "RELAY_DOMAIN") = .ok d ∧
      1 ≤ v.GetInt "JOB_CONCURRENCY" ∧
      w.readPrivateKeyRSA (v.GetString "ACTOR_PEM") = .ok k ∧
      w.ParseRequestURI (v.GetString "REDIS_URL") = .ok ru ∧
      w.redisParseURL (w.URLString ru) = .ok opt ∧
      w.ping (w.redisNewClient opt) = none ∧
      c =
        { actorKey := some k
          domain := some d
          redisClient := some (w.redisNewClient opt)
          brokerURL := some
            (match w.ParseRequestURI (v.GetString "BROKER_URL") with
              | .error _ => ru
              | .ok u => u)
          redisURL := some ru
          serverBind := v.GetString "RELAY_BIND"
          serviceName := v.GetString "RELAY_SERVICENAME"
          serviceSummary := v.GetString "RELAY_SUMMARY"
          serviceIconURL := (w.ParseRequestURI (v.GetString "RELAY_ICON")).toOption
          serviceImageURL := (w.ParseRequestURI (v.GetString "RELAY_IMAGE")).toOption
          jobConcurrency := v.GetInt "JOB_CONCURRENCY" } ∧
      (NewRelayConfig v w).err = none ∧
      Event.ping (w.redisNewClient opt) ∈ (NewRelayConfig v w).trace := by
  rcases build_cases v w with ⟨e, h1⟩ | ⟨d, h1, h2 | ⟨h2, ⟨e, h3⟩ | ⟨k, h3, ⟨e, h4⟩ |
    ⟨ru, h4, ⟨e, h5⟩ | ⟨opt, h5, ⟨e, h6⟩ | h6⟩⟩⟩⟩⟩
  · rw [build_domain_error v w h1] at h
    simp at h
  · rw [(build_concurrency_error v w h1 h2).1] at h
    simp at h
  · rw [(build_key_error v w h1 h2 h3).1] at h
    simp at h
  · rw [(build_redis_parse_error v w h1 h2 h3 h4).1] at h
    simp at h
  · rw [(build_redis_option_error v w h1 h2 h3 h4 h5).1] at h
    simp at h
  · rw [(build_ping_error v w h1 h2 h3 h4 h5 h6).1] at h
    simp at h
  · obtain ⟨hc, he, hp⟩ := build_ok v w h1 h2 h3 h4 h5 h6
    rw [hc] at h
    exact ⟨d, k, ru, opt, h1, h2, h3, h4, h5, h6, (Option.some.inj h).symm, he, hp⟩

/-- The deployment `localWorld` handles addresses as `GoURL` does. -/
theorem localWorld_followsGoURL : localWorld.followsGoURL := by
  constructor
  · intro rawURL r h
    simp [localWorld, h]
  · intro u s h
    simp [localWorld, h]

/-- The cache client of `localWorld` converts only `redis` addresses. -/
theorem localWorld_acceptsOnlyRedisSchemes : localWorld.acceptsOnlyRedisSchemes := by
  intro s opt h
  simp only [localWorld] at h
  split at h
  · rename_i hs
    rcases hs with rfl | rfl
    · exact ⟨_, _, rfl, Or.inl rfl⟩
    · exact ⟨_, _, rfl, Or.inl rfl⟩
  · simp at h

/-! ## Facts about the model of `net/url` -/

namespace GoURL

/-- When `getScheme` finds no scheme, the rest it returns is the whole address. -/
theorem getSchemeLoop_no_scheme (rawURL : List Char) :
    ∀ (l seen : List Char) (scheme rest : List Char),
      getSchemeLoop rawURL seen l = .ok (scheme, rest) → scheme = [] → rest = rawURL := by
  intro l
  induction l with
  | nil =>
    intro seen scheme rest h _
    simp [getSchemeLoop] at h
    exact h.2.symm
  | cons c cs ih =>
    intro seen scheme rest h hs
    unfold getSchemeLoop at h
    split at h
    · exact ih _ _ _ h hs
    · split at h
      · split at h
        · simp at h
          exact h.2.symm
        · exact ih _ _ _ h hs
      · split at h
        · split at h
          · simp at h
          · rename_i hne
            simp at h
            rw [← h.1] at hs
            simp [hs] at hne
        · simp at h
          exact h.2.symm

/-- The text before the separator keeps every property of the characters of
the text that was cut, and does not contain the separator. -/
theorem cut_fst_all (sep : Char) (p : Char → Bool) :
    ∀ l : List Char, l.all p = true →
      (cut sep l).1.all (fun c => p c && c != sep) = true := by
  intro l
  induction l with
  | nil => intro _; simp [cut]
  | cons c cs ih =>
    intro h
    simp only [List.all_cons, Bool.and_eq_true] at h
    unfold cut
    split
    · simp
    · rename_i hne
      simp only [List.all_cons, Bool.and_eq_true]
      exact ⟨by simp [h.1, hne], ih h.2⟩

/-- An address that starts with `https://` parses, if at all, to a URL of
scheme `https`. -/
theorem parse_https_scheme (t : List Char) (u : URL)
    (h : parse ('h' :: 't' :: 't' :: 'p' :: 's' :: ':' :: '/' :: '/' :: t) = .ok u) :
    u.Scheme = "https" := by
  have hs : getScheme ('h' :: 't' :: 't' :: 'p' :: 's' :: ':' :: '/' :: '/' :: t) =
      .ok (['h', 't', 't', 'p', 's'], '/' :: '/' :: t) := by
    simp [getScheme, getSchemeLoop]
  have hc : (cut '?' ('/' :: '/' :: t)).1 = '/' :: '/' :: (cut '?' t).1 := by
    simp [cut]
  simp only [parse, hs, hc] at h
  simp at h
  split at h
  · simp at h
  · simp at h
    rw [← h]

/-- An address that starts with `/` has no scheme. -/
theorem getScheme_slash (t : List Char) :
    getScheme ('/' :: t) = .ok ([], '/' :: t) := by
  simp [getScheme, getSchemeLoop]

/-- A plain address that parses to a URL without scheme is rendered by
`URLString` as a text that starts with `/`. -/
theorem parse_no_scheme (rawURL : List Char) (u : URL)
    (hp : rawURL.all plainChar = true) (h : parse rawURL = .ok u) (hs : u.Scheme = "") :
    ∃ s t, URLString u = some s ∧ s.data = '/' :: t := by
  unfold parse at h
  split at h
  · simp at h
  · cases hg : getScheme rawURL with
    | error e => simp [hg] at h
    | ok sr =>
      obtain ⟨scheme, rest0⟩ := sr
      simp only [hg] at h
      have hsch : String.mk (scheme.map Char.toLower) = "" := by
        rw [← hs]
        split at h
        · split at h
          · split at h
            · simp at h
            · simp at h
              rw [← h]
          · simp at h
            rw [← h]
        · simp at h
          rw [← h]
        · split at h
          · simp at h
            rw [← h]
          · simp at h
      have hnil : scheme = [] := by
        have := congrArg String.data hsch
        simpa using this
      subst hnil
      have hrest : rest0 = rawURL := getSchemeLoop_no_scheme rawURL _ _ _ _ hg rfl
      subst hrest
      have hall := cut_fst_all '?' plainChar rest0 hp
      simp only [List.map_nil] at h
      have he : String.mk [] = "" := rfl
      simp only [he, ne_eq, not_true_eq_false, if_false, decide_False] at h
      generalize hP : (cut '?' rest0).1 = P at h hall
      generalize ((cut '?' rest0).2.2 && (cut '?' rest0).2.1.isEmpty) = fq at h
      generalize (cut '?' rest0).2.1 = rq at h
      have key : ∃ tl, P = '/' :: tl ∧
          u = { Path := String.mk P, ForceQuery := fq, RawQuery := String.mk rq } := by
        split at h
        · simp at h
          exact ⟨_, rfl, h.symm⟩
        · simp at h
          exact ⟨_, rfl, h.symm⟩
        · simp at h
      obtain ⟨tl, rfl, rfl⟩ := key
      clear h hs
      have hpl : plainURL
          { Path := String.mk ('/' :: tl)
            ForceQuery := fq
            RawQuery := String.mk rq } = true := by
        simp only [plainURL, Option.isNone_none, beq_self_eq_true, Bool.true_and, Bool.and_eq_true]
        exact ⟨by decide, hall⟩
      have hne : String.mk ('/' :: tl) ≠ "" := by
        intro hc
        have := congrArg String.data hc
        simp at this
      simp only [URLString, hpl, if_true]
      have hcut : (cut '/' ('/' :: tl)).1 = [] := by simp [cut]
      simp only [ne_eq, not_true_eq_false, if_false, or_self, and_false, false_and, hcut,
        List.contains_nil, Bool.false_eq_true]
      split
      · exact ⟨_, tl ++ ("?".data ++ rq), rfl, by simp [String.data_append]⟩
      · exact ⟨_, tl, rfl, by simp [String.data_append]⟩


end GoURL


/-- In a world that handles addresses as `GoURL` does, a plain address that
the world's parser accepts is parsed as by `GoURL.parse`. -/
theorem followsGoURL_parse {w : Collaborators} (hw : w.followsGoURL) {rawURL : String}
    {u : URL} (hpl : rawURL.data.all GoURL.plainChar = true)
    (h : w.ParseRequestURI rawURL = .ok u) : GoURL.parse rawURL.data = .ok u := by
  have hm := hw.1 rawURL
  simp only [GoURL.ParseRequestURI, hpl, if_true] at hm
  cases hp : GoURL.parse rawURL.data with
  | error e =>
    rw [hp] at hm
    have := hm _ rfl
    rw [h] at this
    simp at this
  | ok u' =>
    rw [hp] at hm
    have := hm _ rfl
    rw [h] at this
    exact this.symm

/-- The job concurrency of a configuration has no influence on
`NewMachineryServer`. -/
theorem newMachineryServer_ignores_jobConcurrency (w : Collaborators) (c : RelayConfig)
    (n : Int) :
    NewMachineryServer w { c with jobConcurrency := n } = NewMachineryServer w c := by
  simp [NewMachineryServer]

/-! ## The claims -/

/-- C1. `NewRelayConfig` returns a configuration and a nil error exactly
when none of the six fatal conditions holds (the domain parses, the
concurrency is at least 1, the key loads, `REDIS_URL` parses, the redis
option conversion succeeds, the ping succeeds); otherwise it returns no
configuration and a non-nil error; and the settings `RELAY_ICON`,
`RELAY_IMAGE`, `BROKER_URL`, `RELAY_BIND`, `RELAY_SERVICENAME` and
`RELAY_SUMMARY` have no influence on whether it succeeds. -/
theorem newRelayConfig_succeeds_iff_no_fatal_condition (v : Viper) (w : Collaborators) :
    (((NewRelayConfig v w).config.isSome = true ∧ (NewRelayConfig v w).err = none) ↔
      ((∃ d, w.ParseRequestURI ("https://" ++ v.GetString "RELAY_DOMAIN") = .ok d) ∧
        1 ≤ v.GetInt "JOB_CONCURRENCY" ∧
        (∃ k, w.readPrivateKeyRSA (v.GetString "ACTOR_PEM") = .ok k) ∧
        ∃ ru, w.ParseRequestURI (v.GetString "REDIS_URL") = .ok ru ∧
          ∃ opt, w.redisParseURL (w.URLString ru) = .ok opt ∧
            w.ping (w.redisNewClient opt) = none)) ∧
    (((NewRelayConfig v w).config.isSome = true ∧ (NewRelayConfig v w).err = none) ∨
      ((NewRelayConfig v w).config = none ∧ (NewRelayConfig v w).err.isSome = true)) ∧
    ∀ v' : Viper,
      (∀ key, key ∉ ["RELAY_ICON", "RELAY_IMAGE", "BROKER_URL", "RELAY_BIND",
          "RELAY_SERVICENAME", "RELAY_SUMMARY"] →
        v'.GetString key = v.GetString key ∧ v'.GetInt key = v.GetInt key) →
      (((NewRelayConfig v' w).config.isSome = true ∧ (NewRelayConfig v' w).err = none) ↔
        ((NewRelayConfig v w).config.isSome = true ∧ (NewRelayConfig v w).err = none)) := by
  have key : ∀ u : Viper,
      (((NewRelayConfig u w).config.isSome = true ∧ (NewRelayConfig u w).err = none) ↔
      ((∃ d, w.ParseRequestURI ("https://" ++ u.GetString "RELAY_DOMAIN") = .ok d) ∧
        1 ≤ u.GetInt "JOB_CONCURRENCY" ∧
        (∃ k, w.readPrivateKeyRSA (u.GetString "ACTOR_PEM") = .ok k) ∧
        ∃ ru, w.ParseRequestURI (u.GetString "REDIS_URL") = .ok ru ∧
          ∃ opt, w.redisParseURL (w.URLString ru) = .ok opt ∧
            w.ping (w.redisNewClient opt) = none)) := by
    intro u
    rcases build_outcome u w with ⟨hc, he, hn⟩ | ⟨hc, he, hy⟩
    · constructor
      · rintro ⟨h, -⟩
        simp [hc] at h
      · intro h
        exact absurd h hn
    · exact ⟨fun _ => hy, fun _ => ⟨hc, he⟩⟩
  refine ⟨key v, ?_, ?_⟩
  · rcases build_outcome v w with ⟨hc, he, -⟩ | ⟨hc, he, -⟩
    · exact Or.inr ⟨hc, he⟩
    · exact Or.inl ⟨hc, he⟩
  · intro v' hv
    rw [key v', key v, (hv "RELAY_DOMAIN" (by decide)).1, (hv "JOB_CONCURRENCY" (by decide)).2,
      (hv "ACTOR_PEM" (by decide)).1, (hv "REDIS_URL" (by decide)).1]

/-- C1, at concrete inputs: the end-to-end settings build in `localWorld`
and fail in `unreachableWorld`. -/
theorem newRelayConfig_succeeds_iff_no_fatal_condition_witness :
    ((NewRelayConfig endToEndSettings localWorld).config.isSome = true ∧
      (NewRelayConfig endToEndSettings localWorld).err = none) ∧
    ((NewRelayConfig endToEndSettings unreachableWorld).config = none ∧
      (NewRelayConfig endToEndSettings unreachableWorld).err.isSome = true) := by
  refine ⟨(newRelayConfig_succeeds_iff_no_fatal_condition endToEndSettings localWorld).1.2
    ⟨⟨_, rfl⟩, by decide, ⟨_, rfl⟩, _, rfl, _, rfl, rfl⟩, ?_⟩
  rcases (newRelayConfig_succeeds_iff_no_fatal_condition endToEndSettings unreachableWorld).2.1
    with h | h
  · exact absurd h.2 (by decide)
  · exact h

/-- C2. If the integer reading of `JOB_CONCURRENCY` is below 1,
`NewRelayConfig` returns an error and no configuration; whenever it returns
a configuration, `JobConcurrency()` is that integer reading, unchanged, and
is at least 1; and every reading of at least 1 is accepted and returned
unchanged when the other fatal steps succeed. -/
theorem jobConcurrency_below_one_is_fatal (v : Viper) (w : Collaborators) :
    (v.GetInt "JOB_CONCURRENCY" < 1 →
      (NewRelayConfig v w).config = none ∧ (NewRelayConfig v w).err.isSome = true) ∧
    (∀ c, (NewRelayConfig v w).config = some c →
      c.JobConcurrency = v.GetInt "JOB_CONCURRENCY" ∧ 1 ≤ c.JobConcurrency) ∧
    (1 ≤ v.GetInt "JOB_CONCURRENCY" →
      (∃ d, w.ParseRequestURI ("https://" ++ v.GetString "RELAY_DOMAIN") = .ok d) →
      (∃ k, w.readPrivateKeyRSA (v.GetString "ACTOR_PEM") = .ok k) →
      (∃ ru opt, w.ParseRequestURI (v.GetString "REDIS_URL") = .ok ru ∧
        w.redisParseURL (w.URLString ru) = .ok opt ∧ w.ping (w.redisNewClient opt) = none) →
      ∃ c, (NewRelayConfig v w).config = some c ∧ (NewRelayConfig v w).err = none ∧
        c.JobConcurrency = v.GetInt "JOB_CONCURRENCY") := by
  refine ⟨?_, ?_, ?_⟩
  · intro hlt
    rcases build_outcome v w with ⟨hc, he, -⟩ | ⟨-, -, -, h2, -⟩
    · exact ⟨hc, he⟩
    · omega
  · intro c hc
    obtain ⟨d, k, ru, opt, -, h2, -, -, -, -, rfl, -, -⟩ := build_some v w hc
    exact ⟨rfl, h2⟩
  · rintro h2 ⟨d, h1⟩ ⟨k, h3⟩ ⟨ru, opt, h4, h5, h6⟩
    obtain ⟨hc, he, -⟩ := build_ok v w h1 h2 h3 h4 h5 h6
    exact ⟨_, hc, he, rfl⟩

/-- C2, at concrete inputs: in `localWorld`, with the other settings as in
`endToEndSettings`, the readings 0 and -1 are fatal and the readings 1, 2 and
1000 are returned by `JobConcurrency()`. -/
theorem jobConcurrency_below_one_is_fatal_witness :
    ((NewRelayConfig { endToEndSettings with GetInt := fun _ => 0 } localWorld).config = none ∧
      (NewRelayConfig { endToEndSettings with GetInt := fun _ => 0 } localWorld).err.isSome
        = true) ∧
    ((NewRelayConfig { endToEndSettings with GetInt := fun _ => -1 } localWorld).config = none ∧
      (NewRelayConfig { endToEndSettings with GetInt := fun _ => -1 } localWorld).err.isSome
        = true) ∧
    (∃ c, (NewRelayConfig { endToEndSettings with GetInt := fun _ => 1 } localWorld).config
        = some c ∧
      (NewRelayConfig { endToEndSettings with GetInt := fun _ => 1 } localWorld).err = none ∧
      c.JobConcurrency = 1) ∧
    (∃ c, (NewRelayConfig { endToEndSettings with GetInt := fun _ => 2 } localWorld).config
        = some c ∧
      (NewRelayConfig { endToEndSettings with GetInt := fun _ => 2 } localWorld).err = none ∧
      c.JobConcurrency = 2) ∧
    (∃ c, (NewRelayConfig { endToEndSettings with GetInt := fun _ => 1000 } localWorld).config
        = some c ∧
      (NewRelayConfig { endToEndSettings with GetInt := fun _ => 1000 } localWorld).err = none ∧
      c.JobConcurrency = 1000) :=
  ⟨(jobConcurrency_below_one_is_fatal _ localWorld).1 (by decide),
   (jobConcurrency_below_one_is_fatal _ localWorld).1 (by decide),
   (jobConcurrency_below_one_is_fatal _ localWorld).2.2 (by decide) ⟨_, rfl⟩ ⟨_, rfl⟩
     ⟨_, _, rfl, rfl, rfl⟩,
   (jobConcurrency_below_one_is_fatal _ localWorld).2.2 (by decide) ⟨_, rfl⟩ ⟨_, rfl⟩
     ⟨_, _, rfl, rfl, rfl⟩,
   (jobConcurrency_below_one_is_fatal _ localWorld).2.2 (by decide) ⟨_, rfl⟩ ⟨_, rfl⟩
     ⟨_, _, rfl, rfl, rfl⟩⟩

/-- C3. On every successful build: if `BROKER_URL` fails to parse as a
request URI, the stored broker address is the stored result-store address,
which is the address parsed from `REDIS_URL`; otherwise it is the parsed
`BROKER_URL`; an absent `BROKER_URL`, read as the empty string, is one that
fails to parse in every world that handles addresses as Go does. In
particular, in every such world, with `RELAY_DOMAIN=example.org`,
`JOB_CONCURRENCY=4`, a loadable key, `REDIS_URL=redis://localhost:6379/0` on
a reachable store and `BROKER_URL` absent, the build succeeds,
`JobConcurrency()` is 4 and the broker address renders as
`redis://localhost:6379/0`. -/
theorem brokerURL_falls_back_to_redisURL :
    (∀ (v : Viper) (w : Collaborators) (c : RelayConfig),
      (NewRelayConfig v w).config = some c →
      (∀ e, w.ParseRequestURI (v.GetString "BROKER_URL") = .error e →
        c.brokerURL = c.redisURL ∧
        ∃ ru, w.ParseRequestURI (v.GetString "REDIS_URL") = .ok ru ∧ c.redisURL = some ru) ∧
      (∀ b, w.ParseRequestURI (v.GetString "BROKER_URL") = .ok b → c.brokerURL = some b)) ∧
    (∀ (v : Viper) (w : Collaborators) (c : RelayConfig),
      w.followsGoURL → (NewRelayConfig v w).config = some c →
      v.GetString "BROKER_URL" = "" → c.brokerURL = c.redisURL) ∧
    (∀ (v : Viper) (w : Collaborators),
      w.followsGoURL →
      v.GetString "RELAY_DOMAIN" = "example.org" →
      v.GetInt "JOB_CONCURRENCY" = 4 →
      (∃ k, w.readPrivateKeyRSA (v.GetString "ACTOR_PEM") = .ok k) →
      v.GetString "REDIS_URL" = "redis://localhost:6379/0" →
      (∃ opt, w.redisParseURL "redis://localhost:6379/0" = .ok opt ∧
        w.ping (w.redisNewClient opt) = none) →
      v.GetString "BROKER_URL" = "" →
      ∃ c b, (NewRelayConfig v w).config = some c ∧ (NewRelayConfig v w).err = none ∧
        c.JobConcurrency = 4 ∧ c.brokerURL = some b ∧
        w.URLString b = "redis://localhost:6379/0") := by
  constructor
  · intro v w c hc
    obtain ⟨d, k, ru, opt, -, -, -, h4, -, -, rfl, -, -⟩ := build_some v w hc
    constructor
    · intro e hb
      simp [hb, h4]
    · intro b hb
      simp [hb]
  refine ⟨?_, ?_⟩
  · rintro v w c ⟨hp, -⟩ hc hbroker
    obtain ⟨d, k, ru, opt, -, -, -, h4, -, -, rfl, -, -⟩ := build_some v w hc
    have hb : w.ParseRequestURI (v.GetString "BROKER_URL") = .error "parse \"\": empty url" := by
      rw [hbroker]
      exact hp _ _ rfl
    simp [hb]
  · rintro v w ⟨hp, hs⟩ hdom hjc ⟨k, h3⟩ hredis ⟨opt, h5, h6⟩ hbroker
    have h1 : w.ParseRequestURI ("https://" ++ v.GetString "RELAY_DOMAIN") =
        .ok { Scheme := "https", Host := "example.org" } := by
      rw [hdom]
      exact hp _ _ rfl
    have h4 : w.ParseRequestURI (v.GetString "REDIS_URL") =
        .ok { Scheme := "redis", Host := "localhost:6379", Path := "/0" } := by
      rw [hredis]
      exact hp _ _ rfl
    have hstr : w.URLString { Scheme := "redis", Host := "localhost:6379", Path := "/0" } =
        "redis://localhost:6379/0" := hs _ _ rfl
    have hb : w.ParseRequestURI (v.GetString "BROKER_URL") = .error "parse \"\": empty url" := by
      rw [hbroker]
      exact hp _ _ rfl
    have h2 : 1 ≤ v.GetInt "JOB_CONCURRENCY" := by omega
    rw [← hstr] at h5
    obtain ⟨hc, he, -⟩ := build_ok v w h1 h2 h3 h4 h5 h6
    refine ⟨_, _, hc, he, hjc, ?_, hstr⟩
    simp [hb]

/-- C3, at concrete inputs: the end-to-end scenario in `localWorld`. -/
theorem brokerURL_falls_back_to_redisURL_witness :
    ∃ c b, (NewRelayConfig endToEndSettings localWorld).config = some c ∧
      (NewRelayConfig endToEndSettings localWorld).err = none ∧
      c.JobConcurrency = 4 ∧ c.brokerURL = some b ∧
      localWorld.URLString b = "redis://localhost:6379/0" :=
  brokerURL_falls_back_to_redisURL.2.2 endToEndSettings localWorld localWorld_followsGoURL
    rfl rfl ⟨_, rfl⟩ rfl ⟨_, rfl, rfl⟩ rfl

/-- C4. An invalid or absent `RELAY_ICON` or `RELAY_IMAGE` never aborts
construction: two settings maps that differ only in these two settings
make `NewRelayConfig` succeed together or fail together, with the same
error; on success the icon (resp. image) field is nil exactly when its
setting fails to parse and is the parsed address otherwise, and all other
fields agree in the two results. -/
theorem icon_and_image_never_abort (v v' : Viper) (w : Collaborators)
    (hv : ∀ key, key ≠ "RELAY_ICON" → key ≠ "RELAY_IMAGE" →
      v'.GetString key = v.GetString key ∧ v'.GetInt key = v.GetInt key) :
    ((NewRelayConfig v w).config.isSome = (NewRelayConfig v' w).config.isSome) ∧
    (NewRelayConfig v w).err = (NewRelayConfig v' w).err ∧
    ∀ c, (NewRelayConfig v w).config = some c →
      (c.serviceIconURL = none ↔ ∃ e, w.ParseRequestURI (v.GetString "RELAY_ICON") = .error e) ∧
      (∀ u, w.ParseRequestURI (v.GetString "RELAY_ICON") = .ok u → c.serviceIconURL = some u) ∧
      (c.serviceImageURL = none ↔
        ∃ e, w.ParseRequestURI (v.GetString "RELAY_IMAGE") = .error e) ∧
      (∀ u, w.ParseRequestURI (v.GetString "RELAY_IMAGE") = .ok u →
        c.serviceImageURL = some u) ∧
      ∃ c', (NewRelayConfig v' w).config = some c' ∧
        c' = { c with serviceIconURL := c'.serviceIconURL
                      serviceImageURL := c'.serviceImageURL } := by
  have e1 := (hv "RELAY_DOMAIN" (by decide) (by decide)).1
  have e2 := (hv "JOB_CONCURRENCY" (by decide) (by decide)).2
  have e3 := (hv "ACTOR_PEM" (by decide) (by decide)).1
  have e4 := (hv "REDIS_URL" (by decide) (by decide)).1
  have e5 := (hv "BROKER_URL" (by decide) (by decide)).1
  have e6 := (hv "RELAY_BIND" (by decide) (by decide)).1
  have e7 := (hv "RELAY_SERVICENAME" (by decide) (by decide)).1
  have e8 := (hv "RELAY_SUMMARY" (by decide) (by decide)).1
  rcases build_cases v w with ⟨e, h1⟩ | ⟨d, h1, h2 | ⟨h2, ⟨e, h3⟩ | ⟨k, h3, ⟨e, h4⟩ |
    ⟨ru, h4, ⟨e, h5⟩ | ⟨opt, h5, ⟨e, h6⟩ | h6⟩⟩⟩⟩⟩
  · have h1' := h1
    rw [← e1] at h1'
    rw [build_domain_error v w h1, build_domain_error v' w h1']
    simp
  · have h1' := h1
    have h2' := h2
    rw [← e1] at h1'
    rw [← e2] at h2'
    obtain ⟨hc, he⟩ := build_concurrency_error v w h1 h2
    obtain ⟨hc', he'⟩ := build_concurrency_error v' w h1' h2'
    simp [hc, he, hc', he']
  · have h1' := h1
    have h2' := h2
    have h3' := h3
    rw [← e1] at h1'
    rw [← e2] at h2'
    rw [← e3] at h3'
    obtain ⟨hc, he⟩ := build_key_error v w h1 h2 h3
    obtain ⟨hc', he'⟩ := build_key_error v' w h1' h2' h3'
    simp [hc, he, hc', he']
  · have h1' := h1
    have h2' := h2
    have h3' := h3
    have h4' := h4
    rw [← e1] at h1'
    rw [← e2] at h2'
    rw [← e3] at h3'
    rw [← e4] at h4'
    obtain ⟨hc, he⟩ := build_redis_parse_error v w h1 h2 h3 h4
    obtain ⟨hc', he'⟩ := build_redis_parse_error v' w h1' h2' h3' h4'
    simp [hc, he, hc', he']
  · have h1' := h1
    have h2' := h2
    have h3' := h3
    have h4' := h4
    rw [← e1] at h1'
    rw [← e2] at h2'
    rw [← e3] at h3'
    rw [← e4] at h4'
    obtain ⟨hc, he⟩ := build_redis_option_error v w h1 h2 h3 h4 h5
    obtain ⟨hc', he'⟩ := build_redis_option_error v' w h1' h2' h3' h4' h5
    simp [hc, he, hc', he']
  · have h1' := h1
    have h2' := h2
    have h3' := h3
    have h4' := h4
    rw [← e1] at h1'
    rw [← e2] at h2'
    rw [← e3] at h3'
    rw [← e4] at h4'
    obtain ⟨hc, he, -⟩ := build_ping_error v w h1 h2 h3 h4 h5 h6
    obtain ⟨hc', he', -⟩ := build_ping_error v' w h1' h2' h3' h4' h5 h6
    simp [hc, he, hc', he']
  · have h1' := h1
    have h2' := h2
    have h3' := h3
    have h4' := h4
    rw [← e1] at h1'
    rw [← e2] at h2'
    rw [← e3] at h3'
    rw [← e4] at h4'
    obtain ⟨hc, he, -⟩ := build_ok v w h1 h2 h3 h4 h5 h6
    obtain ⟨hc', he', -⟩ := build_ok v' w h1' h2' h3' h4' h5 h6
    refine ⟨by simp [hc, hc'], by simp [he, he'], ?_⟩
    intro c hcc
    rw [hc] at hcc
    obtain rfl := Option.some.inj hcc
    refine ⟨?_, ?_, ?_, ?_, _, hc', ?_⟩
    · cases hi : w.ParseRequestURI (v.GetString "RELAY_ICON") <;> simp [Except.toOption]
    · intro u hu
      simp [hu, Except.toOption]
    · cases hi : w.ParseRequestURI (v.GetString "RELAY_IMAGE") <;> simp [Except.toOption]
    · intro u hu
      simp [hu, Except.toOption]
    · simp [e2, e5, e6, e7, e8]

/-- C4, at concrete inputs: adding an icon that parses and an image that does
not to the end-to-end settings keeps the build successful in `localWorld`. -/
theorem icon_and_image_never_abort_witness :
    ((NewRelayConfig endToEndSettings localWorld).config.isSome =
      (NewRelayConfig (withIconAndImage endToEndSettings "https://example.org/icon.png"
        "image.png") localWorld).config.isSome) ∧
    (NewRelayConfig (withIconAndImage endToEndSettings "https://example.org/icon.png"
        "image.png") localWorld).config.isSome = true ∧
    ((NewRelayConfig (withIconAndImage endToEndSettings "https://example.org/icon.png"
        "image.png") localWorld).config.bind fun c => c.serviceImageURL) = none :=
  ⟨(icon_and_image_never_abort endToEndSettings
      (withIconAndImage endToEndSettings "https://example.org/icon.png" "image.png") localWorld
      (fun key h1 h2 => by simp [withIconAndImage, h1, h2])).1,
    by decide, by decide⟩

/-- C5. The error of `NewRelayConfig` is that of the first failing step in
the order domain, job concurrency, signing key, `REDIS_URL` parse, redis
option conversion, ping. It is `RELAY_DOMAIN: `, `ACTOR_PEM: `,
`REDIS_URL: ` or `Redis Connection Test: ` followed by the underlying error
text, or the fixed concurrency message; a failing domain wins over every
later failure, and the connectivity message never starts with
`REDIS_URL: `. -/
theorem first_failing_step_decides_the_error (v : Viper) (w : Collaborators) :
    (∀ e, w.ParseRequestURI ("https://" ++ v.GetString "RELAY_DOMAIN") = .error e →
      (NewRelayConfig v w).config = none ∧
      (NewRelayConfig v w).err = some ("RELAY_DOMAIN: " ++ e)) ∧
    (∀ d, w.ParseRequestURI ("https://" ++ v.GetString "RELAY_DOMAIN") = .ok d →
      (v.GetInt "JOB_CONCURRENCY" < 1 →
        (NewRelayConfig v w).config = none ∧
        (NewRelayConfig v w).err =
          some "JOB_CONCURRENCY IS 0 OR EMPTY. SHOULD BE MORE THAN 1") ∧
      (1 ≤ v.GetInt "JOB_CONCURRENCY" →
        (∀ e, w.readPrivateKeyRSA (v.GetString "ACTOR_PEM") = .error e →
          (NewRelayConfig v w).config = none ∧
          (NewRelayConfig v w).err = some ("ACTOR_PEM: " ++ e)) ∧
        (∀ k, w.readPrivateKeyRSA (v.GetString "ACTOR_PEM") = .ok k →
          (∀ e, w.ParseRequestURI (v.GetString "REDIS_URL") = .error e →
            (NewRelayConfig v w).config = none ∧
            (NewRelayConfig v w).err = some ("REDIS_URL: " ++ e)) ∧
          (∀ ru, w.ParseRequestURI (v.GetString "REDIS_URL") = .ok ru →
            (∀ e, w.redisParseURL (w.URLString ru) = .error e →
              (NewRelayConfig v w).config = none ∧
              (NewRelayConfig v w).err = some ("REDIS_URL: " ++ e)) ∧
            (∀ opt, w.redisParseURL (w.URLString ru) = .ok opt →
              ∀ e, w.ping (w.redisNewClient opt) = some e →
                (NewRelayConfig v w).config = none ∧
                (NewRelayConfig v w).err = some ("Redis Connection Test: " ++ e) ∧
                ¬ "REDIS_URL: ".data <+: ("Redis Connection Test: " ++ e).data))))) := by
  refine ⟨fun e h1 => ?_, fun d h1 => ⟨fun h2 => build_concurrency_error v w h1 h2,
    fun h2 => ⟨fun e h3 => build_key_error v w h1 h2 h3, fun k h3 =>
      ⟨fun e h4 => build_redis_parse_error v w h1 h2 h3 h4, fun ru h4 =>
        ⟨fun e h5 => build_redis_option_error v w h1 h2 h3 h4 h5, fun opt h5 e h6 => ?_⟩⟩⟩⟩⟩
  · rw [build_domain_error v w h1]
    exact ⟨rfl, rfl⟩
  · obtain ⟨hc, he, -⟩ := build_ping_error v w h1 h2 h3 h4 h5 h6
    refine ⟨hc, he, ?_⟩
    simp [String.data_append]

/-- C5, at concrete inputs: with a malformed `RELAY_DOMAIN` and a
concurrency of `0` the error is the one of the domain; with the store down
it is the connectivity error. -/
theorem first_failing_step_decides_the_error_witness :
    (NewRelayConfig malformedDomainSettings localWorld).err =
      some ("RELAY_DOMAIN: " ++
        "parse \"https://example.org:http\": invalid port \":http\" after host") ∧
    (NewRelayConfig endToEndSettings unreachableWorld).err =
      some ("Redis Connection Test: " ++
        "dial tcp 127.0.0.1:6379: connect: connection refused") :=
  ⟨((first_failing_step_decides_the_error malformedDomainSettings localWorld).1 _ rfl).2,
   (((((first_failing_step_decides_the_error endToEndSettings unreachableWorld).2 _ rfl).2
      (by decide)).2 _ rfl).2 _ rfl).2 _ rfl _ rfl |>.2.1⟩

/-- C6. On every successful build the accessors return exactly the values
read or parsed: `ServerBind()` is `RELAY_BIND` and `ServerServiceName()` is
`RELAY_SERVICENAME`, whatever strings they are; `ServerHostname()` is the
result of parsing `"https://" + RELAY_DOMAIN`; `JobConcurrency()` is the
integer reading of `JOB_CONCURRENCY`; `ActorKey()` is the key loaded from
the `ACTOR_PEM` path; `RedisClient()` is the client that was pinged. -/
theorem accessors_return_the_parsed_values (v : Viper) (w : Collaborators) (c : RelayConfig)
    (h : (NewRelayConfig v w).config = some c) :
    c.ServerBind = v.GetString "RELAY_BIND" ∧
    c.ServerServiceName = v.GetString "RELAY_SERVICENAME" ∧
    (∃ d, w.ParseRequestURI ("https://" ++ v.GetString "RELAY_DOMAIN") = .ok d ∧
      c.ServerHostname = some d) ∧
    c.JobConcurrency = v.GetInt "JOB_CONCURRENCY" ∧
    (∃ k, w.readPrivateKeyRSA (v.GetString "ACTOR_PEM") = .ok k ∧ c.ActorKey = some k) ∧
    ∃ client, c.RedisClient = some client ∧ Event.ping client ∈ (NewRelayConfig v w).trace ∧
      w.ping client = none ∧
      ∃ ru opt, w.ParseRequestURI (v.GetString "REDIS_URL") = .ok ru ∧
        w.redisParseURL (w.URLString ru) = .ok opt ∧ client = w.redisNewClient opt := by
  obtain ⟨d, k, ru, opt, h1, -, h3, h4, h5, h6, rfl, -, hp⟩ := build_some v w h
  exact ⟨rfl, rfl, ⟨d, h1, rfl⟩, rfl, ⟨k, h3, rfl⟩, _, rfl, hp, h6, ru, opt, h4, h5, rfl⟩

/-- C6, at concrete inputs: the end-to-end settings in `localWorld`, where
`RELAY_BIND` and `RELAY_SERVICENAME` are empty. -/
theorem accessors_return_the_parsed_values_witness :
    ∃ c, (NewRelayConfig endToEndSettings localWorld).config = some c ∧
      c.ServerBind = "" ∧ c.ServerServiceName = "" ∧
      c.ServerHostname = some { Scheme := "https", Host := "example.org" } ∧
      c.JobConcurrency = 4 ∧ c.ActorKey = some ⟨1⟩ ∧ c.RedisClient = some ⟨1⟩ :=
  ⟨_, rfl,
    (accessors_return_the_parsed_values endToEndSettings localWorld _ rfl).1,
    (accessors_return_the_parsed_values endToEndSettings localWorld _ rfl).2.1,
    rfl, rfl, rfl, rfl⟩

/-- C7. For every configuration with a broker address and a result-store
address, `NewMachineryServer` calls the task-queue factory exactly once, on
the settings made of the string forms of the two addresses and the fixed
queue constants, and returns the factory's server and error unchanged. -/
theorem newMachineryServer_delegates_to_the_factory (w : Collaborators) (c : RelayConfig)
    (b r : URL) (hb : c.brokerURL = some b) (hr : c.redisURL = some r) :
    NewMachineryServer w c = some
      { server := (w.machineryNewServer
          { Broker := w.URLString b
            DefaultQueue := "relay"
            ResultBackend := w.URLString r
            ResultsExpireIn := 1
            AMQP := some
              { Exchange := "relay_exchange"
                ExchangeType := "direct"
                BindingKey := "relay_task" } }).1
        err := (w.machineryNewServer
          { Broker := w.URLString b
            DefaultQueue := "relay"
            ResultBackend := w.URLString r
            ResultsExpireIn := 1
            AMQP := some
              { Exchange := "relay_exchange"
                ExchangeType := "direct"
                BindingKey := "relay_task" } }).2
        trace := [Event.newServer
          { Broker := w.URLString b
            DefaultQueue := "relay"
            ResultBackend := w.URLString r
            ResultsExpireIn := 1
            AMQP := some
              { Exchange := "relay_exchange"
                ExchangeType := "direct"
                BindingKey := "relay_task" } }] } := by
  simp [NewMachineryServer, hb, hr]

/-- C7, at concrete inputs: a factory that rejects every settings value has
its error returned unchanged for `exampleConfig`. -/
theorem newMachineryServer_delegates_to_the_factory_witness :
    (NewMachineryServer
        { localWorld with machineryNewServer := fun _ => (none, some "no broker") }
        exampleConfig).map (fun res => (res.server, res.err, res.trace.length)) =
      some (none, some "no broker", 1) := by
  rw [newMachineryServer_delegates_to_the_factory _ exampleConfig _ _ rfl rfl]
  rfl

/-- C8, as stated, fails: no two configurations that differ only in job
concurrency make `NewMachineryServer` pass different settings to the
factory. -/
theorem newMachineryServer_settings_depend_on_jobConcurrency_refuted :
    ¬ ∃ (w : Collaborators) (c₁ c₂ : RelayConfig),
      c₂ = { c₁ with jobConcurrency := c₂.jobConcurrency } ∧
      (NewMachineryServer w c₁).map (fun res => res.trace) ≠
        (NewMachineryServer w c₂).map (fun res => res.trace) := by
  rintro ⟨w, c₁, c₂, hc, hne⟩
  apply hne
  rw [hc, newMachineryServer_ignores_jobConcurrency w c₁ c₂.jobConcurrency]

/-- C8, amended. The settings handed to the task-queue factory are the
queue constants, the broker address and the result-store address; the job
concurrency takes no part: changing only the job concurrency of a
configuration changes neither the settings passed to the factory nor the
result. -/
theorem newMachineryServer_settings_ignore_jobConcurrency (w : Collaborators)
    (c : RelayConfig) (n : Int) :
    NewMachineryServer w { c with jobConcurrency := n } = NewMachineryServer w c ∧
    ∀ res, NewMachineryServer w c = some res →
      ∃ b r, c.brokerURL = some b ∧ c.redisURL = some r ∧
        res.trace = [Event.newServer
          { Broker := w.URLString b
            DefaultQueue := "relay"
            ResultBackend := w.URLString r
            ResultsExpireIn := 1
            AMQP := some
              { Exchange := "relay_exchange"
                ExchangeType := "direct"
                BindingKey := "relay_task" } }] := by
  refine ⟨newMachineryServer_ignores_jobConcurrency w c n, ?_⟩
  intro res hres
  cases hb : c.brokerURL with
  | none => simp [NewMachineryServer, hb] at hres
  | some b =>
    cases hr : c.redisURL with
    | none => simp [NewMachineryServer, hb, hr] at hres
    | some r =>
      refine ⟨b, r, rfl, rfl, ?_⟩
      simp [NewMachineryServer, hb, hr] at hres
      rw [← hres]

/-- C9, as stated, fails: with an absent `RELAY_DOMAIN`, `BROKER_URL=/foo`
and `REDIS_URL=redis:///0` the build succeeds in `localWorld`; the domain
has an empty host, the broker address has neither scheme nor host, and the
result-store address has an empty host. -/
theorem built_addresses_are_absolute_refuted :
    ∃ c d b r, (NewRelayConfig relativeAddressSettings localWorld).config = some c ∧
      (NewRelayConfig relativeAddressSettings localWorld).err = none ∧
      c.domain = some d ∧ d.Host = "" ∧
      c.brokerURL = some b ∧ b.Scheme = "" ∧ b.Host = "" ∧
      c.redisURL = some r ∧ r.Host = "" :=
  ⟨_, _, _, _, rfl, rfl, rfl, rfl, rfl, rfl, rfl, rfl, rfl⟩

/-- C9, amended. On every successful build the domain, the broker address
and the result-store address are present, and each is the address that the
request-URI parser returned: for `"https://" + RELAY_DOMAIN`, for
`REDIS_URL`, and for `BROKER_URL` or, when that does not parse, for
`REDIS_URL`. Where addresses are handled as Go does and the setting is a
plain address, the domain has the scheme `https`, and the result-store
address has a non-empty scheme when the cache client converts only `redis`
and `rediss` addresses. Nothing is guaranteed about a host, nor about the
scheme of a parsed `BROKER_URL`. -/
theorem built_addresses_are_present_and_schemed (v : Viper) (w : Collaborators)
    (c : RelayConfig) (h : (NewRelayConfig v w).config = some c) :
    (∃ d, w.ParseRequestURI ("https://" ++ v.GetString "RELAY_DOMAIN") = .ok d ∧
      c.domain = some d ∧
      (w.followsGoURL → (v.GetString "RELAY_DOMAIN").data.all GoURL.plainChar = true →
        d.Scheme = "https")) ∧
    ∃ ru, w.ParseRequestURI (v.GetString "REDIS_URL") = .ok ru ∧ c.redisURL = some ru ∧
      (w.followsGoURL → w.acceptsOnlyRedisSchemes →
        (v.GetString "REDIS_URL").data.all GoURL.plainChar = true → ru.Scheme ≠ "") ∧
      ((∃ b, w.ParseRequestURI (v.GetString "BROKER_URL") = .ok b ∧ c.brokerURL = some b) ∨
       ((∃ e, w.ParseRequestURI (v.GetString "BROKER_URL") = .error e) ∧
        c.brokerURL = some ru)) := by
  obtain ⟨d, k, ru, opt, h1, -, -, h4, h5, -, rfl, -, -⟩ := build_some v w h
  refine ⟨⟨d, h1, rfl, ?_⟩, ru, h4, rfl, ?_, ?_⟩
  · intro hw hpl
    have hall : ("https://" ++ v.GetString "RELAY_DOMAIN").data.all GoURL.plainChar = true := by
      rw [String.data_append, List.all_append, hpl]
      decide
    have hp := followsGoURL_parse hw hall h1
    rw [String.data_append] at hp
    exact GoURL.parse_https_scheme _ _ hp
  · intro hw hr hpl hs
    obtain ⟨s, t, hstr, hdata⟩ :=
      GoURL.parse_no_scheme _ _ hpl (followsGoURL_parse hw hpl h4) hs
    rw [hw.2 _ _ hstr] at h5
    obtain ⟨scheme, rest, hg, hsch⟩ := hr _ _ h5
    rw [hdata, GoURL.getScheme_slash] at hg
    simp only [Except.ok.injEq, Prod.mk.injEq] at hg
    rw [← hg.1] at hsch
    rcases hsch with hsch | hsch <;> exact absurd hsch (by decide)
  · cases hb : w.ParseRequestURI (v.GetString "BROKER_URL") with
    | error e => exact Or.inr ⟨⟨e, rfl⟩, rfl⟩
    | ok b => exact Or.inl ⟨b, rfl, rfl⟩

/-- C9, amended, at concrete inputs: the addresses built from
`relativeAddressSettings` in `localWorld` are present, the domain has the
scheme `https` and the result-store address has a scheme. -/
theorem built_addresses_are_present_and_schemed_witness :
    ∃ c, (NewRelayConfig relativeAddressSettings localWorld).config = some c ∧
      (∃ d, c.domain = some d ∧ d.Scheme = "https") ∧
      (∃ ru, c.redisURL = some ru ∧ ru.Scheme ≠ "") ∧
      c.brokerURL = some { Path := "/foo" } := by
  obtain ⟨⟨d, -, hd, hsch⟩, ru, -, hru, hrs, -⟩ :=
    built_addresses_are_present_and_schemed relativeAddressSettings localWorld _ rfl
  exact ⟨_, rfl, ⟨d, hd, hsch localWorld_followsGoURL (by decide)⟩,
    ⟨ru, hru, hrs localWorld_followsGoURL localWorld_acceptsOnlyRedisSchemes (by decide)⟩, rfl⟩

set_option maxRecDepth 8000 in
/-- C10. For every configuration whose domain, broker address and
result-store address are present, `DumpWelcomeMessage` returns exactly the
welcome text: version, module name, service name, host of the domain, broker
and result-store addresses in string form, bind address and job concurrency
in decimal, each once and in this layout; the summary, the icon and the
image do not occur in it. -/
theorem dumpWelcomeMessage_text (w : Collaborators) (c : RelayConfig)
    (moduleName version : String) (d b r : URL)
    (hd : c.domain = some d) (hb : c.brokerURL = some b) (hr : c.redisURL = some r) :
    c.DumpWelcomeMessage w moduleName version = some
      ("Welcome to YUKIMOCHI Activity-Relay " ++ version ++ " - " ++ moduleName ++
        "\n - Configuration\nRELAY NAME      : " ++ c.serviceName ++
        "\nRELAY DOMAIN    : " ++ d.Host ++
        "\nBROKER URL      : " ++ w.URLString b ++
        "\nREDIS URL       : " ++ w.URLString r ++
        "\nBIND ADDRESS    : " ++ c.serverBind ++
        "\nJOB_CONCURRENCY : " ++ Itoa c.jobConcurrency ++ "\n") := by
  simp only [RelayConfig.DumpWelcomeMessage, hd, hb, hr, Sprintf, welcomeFormat, sprintfChars,
    Arg.render, Option.map]
  apply congrArg
  apply String.ext
  simp only [String.data_append, List.append_assoc, List.cons_append, List.nil_append]

set_option maxRecDepth 8000 in
/-- C10, at concrete inputs: the welcome text of `exampleConfig`. -/
theorem dumpWelcomeMessage_text_witness :
    exampleConfig.DumpWelcomeMessage localWorld "server" "v1.0.0" = some
      "Welcome to YUKIMOCHI Activity-Relay v1.0.0 - server\n - Configuration\nRELAY NAME      : Relay\nRELAY DOMAIN    : example.org\nBROKER URL      : redis://localhost:6379/0\nREDIS URL       : redis://localhost:6379/0\nBIND ADDRESS    : 0.0.0.0:8080\nJOB_CONCURRENCY : 4\n" := by
  rw [dumpWelcomeMessage_text localWorld exampleConfig "server" "v1.0.0" _ _ _ rfl rfl rfl]
  rfl

end ActivityRelay
